import Mathlib

/-!
Shallow embedding of `random_c_program_finder.py`: a brute-force fuzz
harness that generates random strings over a character alphabet, writes
them into a C source template, and invokes an external compiler to probe
whether they compile.  Pure helpers are translated directly; the
process-level effects (the filesystem, the compiler subprocess, the
Mersenne-Twister random stream, and the shared multiprocessing counters)
are made explicit as data: the compiler run is an oracle value
(`RunOutcome`), the files touched by one probe are a pair of existence
flags (`ProbeFiles`), the seeded random stream is a function from seed
and draw index to a chosen index, and the shared counters are folded
over the sequence of worker completions in program order (each worker
mutates them inside one `counter_lock` critical section, so the
interleaving is a sequence).
-/

/-- `string.ascii_lowercase` from Python's string module. -/
def ascii_lowercase : String := "abcdefghijklmnopqrstuvwxyz"

/-- `string.ascii_uppercase`. -/
def ascii_uppercase : String := "ABCDEFGHIJKLMNOPQRSTUVWXYZ"

/-- `string.digits`. -/
def string_digits : String := "0123456789"

/-- The symbol set added by `get_charset` (braces and the single quote
written with hex escapes). -/
def symbol_chars : String := "+-*/=<>!&|^%~?:;,.()\x7b\x7d[]\x27\"\\"

/-- The whitespace set added by `get_charset`: space, tab, newline. -/
def whitespace_chars : String := " \t\n"

/-- Python truthiness of an optional string argument: `None` and the
empty string are falsy, every other string is truthy.  Models the
`if custom_charset:` test in `get_charset`. -/
def py_truthy : Option String → Bool
  | none => false
  | some s => !s.isEmpty

/-- `get_charset` from the source: a non-truthy `custom_charset`
(`None` or `""`) falls through to the flag-assembled set, built by
successive `+=` in the source's order; a truthy custom charset is
returned as is. -/
def get_charset (include_lowercase include_uppercase include_digits
    include_symbols include_whitespace : Bool)
    (custom_charset : Option String) : String :=
  if py_truthy custom_charset then custom_charset.getD ""
  else
    let charset := ""
    let charset := if include_lowercase then charset ++ ascii_lowercase else charset
    let charset := if include_uppercase then charset ++ ascii_uppercase else charset
    let charset := if include_digits then charset ++ string_digits else charset
    let charset := if include_symbols then charset ++ symbol_chars else charset
    let charset := if include_whitespace then charset ++ whitespace_chars else charset
    charset

/-- `generate_random_c_content`: `''.join(random.choice(charset) for _ in
range(size))`.  The charset is its list of characters; `pick i` is the
index chosen by `random.choice` at draw `i` (Python's `choice` returns
`seq[randbelow(len(seq))]`, an element at a valid index, which the `%`
reduction makes explicit).  `random.choice` raises on an empty sequence,
so results are only meaningful for a non-empty charset. -/
def generate_random_c_content (size : Nat) (charset : List Char)
    (pick : Nat → Nat) : List Char :=
  (List.range size).map fun i => charset.getD (pick i % charset.length) 'a'

/-- The shared counters `total_count` and `successful_count`, both
`manager.Value('i', 0)` cells mutated under `counter_lock`. -/
structure Counters where
  total_count : Nat
  successful_count : Nat
deriving DecidableEq

/-- One worker's critical section on the counters: `total_count.value += 1`
and, on success, `successful_count.value += 1`. -/
def worker_update (c : Counters) (success : Bool) : Counters :=
  { total_count := c.total_count + 1
    successful_count :=
      if success then c.successful_count + 1 else c.successful_count }

/-- Counter state after a sequence of worker completions, starting from
the freshly created cells `(0, 0)`. -/
def run_counters (outcomes : List Bool) : Counters :=
  outcomes.foldl worker_update ⟨0, 0⟩

/-- Outcome of `subprocess.run([compiler, "-c", c_file], ..., timeout=t)`
as an oracle value: either the child completed with an exit code, a
standard-error text and possibly an object file on disk, or the call
raised (`TimeoutExpired`, `FileNotFoundError` for a missing compiler,
and any other `Exception` the source's bare `except` catches), with
`message` modelling `str(e)`. -/
inductive RunOutcome where
  | completed (returncode : Int) (stderr : String) (producedObject : Bool)
  | raised (message : String) (producedObject : Bool)
deriving DecidableEq

/-- Existence flags for the two files one probe can leave behind:
`{filename}.c` and `{filename}.o`. -/
structure ProbeFiles where
  cFileExists : Bool
  oFileExists : Bool
deriving DecidableEq

/-- `f"{pid}_{unique_id}.c"`. -/
def c_filename (pid : Nat) (unique_id : String) : String :=
  toString pid ++ "_" ++ unique_id ++ ".c"

/-- The tuple returned by `test_compilation` together with the probe's
filesystem footprint and the timeout it handed to `subprocess.run`. -/
structure ProbeResult where
  success : Bool
  content : String
  saved_file : Option String
  error_message : String
  files : ProbeFiles
  subprocessArgv : List String
  subprocessTimeout : Nat
deriving DecidableEq

/-- `test_compilation` from the source.  It writes `{pid}_{uid}.c`
(so that file exists when the compiler runs), invokes the compiler,
and then follows the source's cleanup control flow:

* completed run, exit 0: keep the `.c` file, then remove the `.o` file
  if it exists (the unconditional cleanup after the `try`);
* completed run, non-zero exit: remove the `.c` file and the `.o` file
  if present, return the captured stderr;
* raised (timeout, launch failure, ...): the `except` block removes the
  `.c` file if present and keeps `str(e)` as the error text; the
  unconditional cleanup afterwards removes any `.o` file.

The final `timeout` parameter is Python's keyword argument with default
value 2. -/
def test_compilation (content : String) (pid : Nat) (unique_id : String)
    (compiler : String) (outcome : RunOutcome) (timeout : Nat) : ProbeResult :=
  let filename := toString pid ++ "_" ++ unique_id
  let c_file := filename ++ ".c"
  match outcome with
  | .completed returncode stderr producedObject =>
      let success := returncode == 0
      let error_message := if success then "" else stderr
      let afterRun : ProbeFiles := ⟨true, producedObject⟩
      let afterFailureCleanup : ProbeFiles :=
        if success then afterRun else ⟨false, false⟩
      { success := success
        content := content
        saved_file := if success then some c_file else none
        error_message := error_message
        files := ⟨afterFailureCleanup.cFileExists, false⟩
        subprocessArgv := [compiler, "-c", c_file]
        subprocessTimeout := timeout }
  | .raised message _producedObject =>
      { success := false
        content := content
        saved_file := none
        error_message := message
        files := ⟨false, false⟩
        subprocessArgv := [compiler, "-c", c_file]
        subprocessTimeout := timeout }

/-- `random.seed(pid + task_id)` in `worker`: the seed is the sum of the
operating-system process id and the task id. -/
def worker_seed (pid : Nat) (task_id : Nat) : Nat :=
  pid + task_id

/-- The task tuple `main` builds for one worker invocation (the shared
lock and counter proxies are carried separately in the embedding).  Note
that no timeout field is present: `main` never puts `args.timeout` into
the tuple. -/
structure WorkerTask where
  task_id : Nat
  byte_size : Nat
  charset : String
  compiler : String
  show_errors : Bool
deriving DecidableEq

/-- What one `worker` call produces: its boolean return value, the
counters after its critical section, and the probe it ran. -/
structure WorkerResult where
  success : Bool
  counters : Counters
  probe : ProbeResult
deriving DecidableEq

/-- `worker` from the source: seed the random stream with
`pid + task_id`, generate `byte_size` characters from the charset,
probe the compiler, and update the shared counters under the lock.
`stream seed` is the index sequence of Python's Mersenne Twister after
`random.seed(seed)` — a deterministic function of the seed.  The call
`test_compilation(content, pid, compiler)` omits the timeout keyword,
so the Python default value 2 is passed here. -/
def worker (stream : Nat → Nat → Nat) (t : WorkerTask) (counters : Counters)
    (pid : Nat) (unique_id : String) (outcome : RunOutcome) : WorkerResult :=
  let content :=
    generate_random_c_content t.byte_size t.charset.data
      (stream (worker_seed pid t.task_id))
  let probe := test_compilation (String.mk content) pid unique_id t.compiler outcome 2
  { success := probe.success
    counters := worker_update counters probe.success
    probe := probe }

/-- The parsed command line (`argparse` result), with each field's
declared default.  `tasks = -1` is the unlimited-mode sentinel.
`timeout` is the value of the `--timeout` option (default 2). -/
structure Config where
  byte_size : Nat
  tasks : Int
  no_lowercase : Bool
  no_uppercase : Bool
  no_digits : Bool
  no_symbols : Bool
  whitespace : Bool
  custom_charset : Option String
  compiler : String
  show_errors : Bool
  timeout : Nat
deriving DecidableEq

/-- The `Config` carrying every argparse default. -/
def default_config : Config :=
  ⟨5, 10000, false, false, false, false, false, none, "gcc", false, 2⟩

/-- The charset `main` computes from the parsed arguments: each
`--no-*` flag negates the corresponding include option. -/
def main_charset (cfg : Config) : String :=
  get_charset (!cfg.no_lowercase) (!cfg.no_uppercase) (!cfg.no_digits)
    (!cfg.no_symbols) cfg.whitespace cfg.custom_charset

/-- The task tuple `main` builds for task id `i`:
`(i, lock, counters, args.byte_size, charset, args.compiler,
args.show_errors)` — `args.timeout` is not included. -/
def make_task (cfg : Config) (i : Nat) : WorkerTask :=
  ⟨i, cfg.byte_size, main_charset cfg, cfg.compiler, cfg.show_errors⟩

/-- The bounded-mode task list `[(i, ...) for i in range(args.tasks)]`. -/
def make_tasks (cfg : Config) (n : Nat) : List WorkerTask :=
  (List.range n).map (make_task cfg)

/-- How far `main` gets before running tasks: an empty charset is
reported and the function returns before the pool, the counters or any
task tuple is created; otherwise `tasks = -1` selects unlimited mode
and any other count builds the bounded task list, in both cases with
counters freshly initialised to `(0, 0)`. -/
inductive MainOutcome where
  | configError (message : String)
  | unlimited (initial : Counters)
  | bounded (tasks : List WorkerTask) (initial : Counters)
deriving DecidableEq

/-- The setup phase of `main`, up to the point where tasks start. -/
def main_setup (cfg : Config) : MainOutcome :=
  if main_charset cfg = "" then
    .configError "Error: At least one character type must be included"
  else if cfg.tasks = -1 then
    .unlimited ⟨0, 0⟩
  else
    .bounded (make_tasks cfg cfg.tasks.toNat) ⟨0, 0⟩

/-- The tasks a `main_setup` result has dispatched: none on a
configuration error, none yet in unlimited mode (batches are built
later), the full list in bounded mode. -/
def tasks_of : MainOutcome → List WorkerTask
  | .configError _ => []
  | .unlimited _ => []
  | .bounded ts _ => ts

/-- `calculate_combinations`: `charset_size ** length`, exact integer
arithmetic. -/
def calculate_combinations (charset_size : Nat) (len : Nat) : Nat :=
  charset_size ^ len

/-- The two shapes `format_large_number` can return: the plain
comma-grouped rendering of the value, or the scientific rendering
`mantissa × 10^exponent` where `exponent = floor(log10 number)` and the
mantissa is `number / 10^exponent`; the pair `(value, exponent)`
represents that mantissa-and-power decomposition exactly. -/
inductive NumberFormat where
  | plain (value : Nat)
  | scientific (value : Nat) (exponent : Nat)
deriving DecidableEq

/-- `format_large_number` on the exact integer values it receives from
`calculate_combinations`: below `1e6` the plain comma rendering, from
`1e6` on the scientific rendering with `exponent = floor(log10 n)`
(exact on naturals as `Nat.log 10 n`). -/
def format_large_number (number : Nat) : NumberFormat :=
  if number < 1000000 then .plain number
  else .scientific number (Nat.log 10 number)

/-- A concrete random stream used to evaluate the embedding at
specific inputs. -/
def demo_stream (seed : Nat) (i : Nat) : Nat :=
  seed + i

/-! ## Helper lemmas -/

theorem foldl_update_total (l : List Bool) (c : Counters) :
    (l.foldl worker_update c).total_count = c.total_count + l.length := by
  induction l generalizing c with
  | nil => simp
  | cons b t ih =>
      rw [List.foldl_cons, ih]
      simp [worker_update]
      omega

theorem foldl_update_succ_mono (l : List Bool) (c : Counters) :
    c.successful_count ≤ (l.foldl worker_update c).successful_count := by
  induction l generalizing c with
  | nil => simp
  | cons b t ih =>
      rw [List.foldl_cons]
      refine le_trans ?_ (ih (worker_update c b))
      cases b <;> simp [worker_update]

theorem foldl_update_succ_le_total (l : List Bool) (c : Counters)
    (h : c.successful_count ≤ c.total_count) :
    (l.foldl worker_update c).successful_count
      ≤ (l.foldl worker_update c).total_count := by
  induction l generalizing c with
  | nil => simpa
  | cons b t ih =>
      rw [List.foldl_cons]
      refine ih (worker_update c b) ?_
      cases b <;> simp [worker_update] <;> omega

theorem test_compilation_content (content : String) (pid : Nat)
    (uid : String) (compiler : String) (outcome : RunOutcome) (timeout : Nat) :
    (test_compilation content pid uid compiler outcome timeout).content
      = content := by
  cases outcome <;> rfl

/-! ## Claim theorems -/

/-- C2: for every non-empty alphabet and every length `N ≥ 0`,
`generate_random_c_content` returns exactly `N` characters, each drawn
from the alphabet, and `N = 0` yields the empty string. -/
theorem claim_c2_generator_spec (size : Nat) (charset : List Char)
    (pick : Nat → Nat) (h : charset ≠ []) :
    (generate_random_c_content size charset pick).length = size
    ∧ (∀ c ∈ generate_random_c_content size charset pick, c ∈ charset)
    ∧ generate_random_c_content 0 charset pick = [] := by
  refine ⟨by simp [generate_random_c_content], ?_,
    by simp [generate_random_c_content]⟩
  intro c hc
  simp only [generate_random_c_content, List.mem_map, List.mem_range] at hc
  obtain ⟨i, _, rfl⟩ := hc
  have hlen : 0 < charset.length := List.length_pos.mpr h
  have hidx : pick i % charset.length < charset.length := Nat.mod_lt _ hlen
  rw [List.getD_eq_getElem charset 'a' hidx]
  exact List.getElem_mem hidx

/-- C2 witness at a concrete alphabet and length. -/
theorem claim_c2_witness :
    (generate_random_c_content 3 ['a', 'b'] id).length = 3
    ∧ (∀ c ∈ generate_random_c_content 3 ['a', 'b'] id, c ∈ ['a', 'b'])
    ∧ generate_random_c_content 0 ['a', 'b'] id = [] :=
  claim_c2_generator_spec 3 ['a', 'b'] id (by decide)

/-- C3: the shared counters only grow along a run, satisfy
`successes ≤ attempts` at every point, and after a bounded run of `T`
completed tasks the attempts counter is exactly `T` with successes
between `0` and `T`. -/
theorem claim_c3_counters_invariant (outcomes more : List Bool) :
    (run_counters outcomes).total_count = outcomes.length
    ∧ (run_counters outcomes).successful_count
        ≤ (run_counters outcomes).total_count
    ∧ (run_counters outcomes).total_count
        ≤ (run_counters (outcomes ++ more)).total_count
    ∧ (run_counters outcomes).successful_count
        ≤ (run_counters (outcomes ++ more)).successful_count := by
  have htot : ∀ l : List Bool, (run_counters l).total_count = l.length := by
    intro l
    have := foldl_update_total l ⟨0, 0⟩
    simpa [run_counters] using this
  refine ⟨htot outcomes, ?_, ?_, ?_⟩
  · exact foldl_update_succ_le_total outcomes ⟨0, 0⟩ (by simp)
  · rw [htot outcomes, htot (outcomes ++ more)]
    simp
  · have happ : run_counters (outcomes ++ more)
        = more.foldl worker_update (run_counters outcomes) := by
      simp [run_counters, List.foldl_append]
    rw [happ]
    exact foldl_update_succ_mono more (run_counters outcomes)

/-- C4: whenever a probe fails — non-zero exit, timeout, or launch
error — `test_compilation` leaves neither the `.c` file nor any `.o`
file on disk. -/
theorem claim_c4_failure_cleanup (content : String) (pid : Nat)
    (uid : String) (compiler : String) (outcome : RunOutcome) (timeout : Nat)
    (h : (test_compilation content pid uid compiler outcome timeout).success
      = false) :
    (test_compilation content pid uid compiler outcome timeout).files
      = ⟨false, false⟩ := by
  cases outcome with
  | completed rc stderr oP =>
      simp only [test_compilation] at h ⊢
      simp [h]
  | raised msg oP => rfl

/-- C4 witness: a probe that failed with exit code 1 leaves no files. -/
theorem claim_c4_witness :
    (test_compilation "x" 42 "u" "gcc" (.completed 1 "err" true) 2).files
      = ⟨false, false⟩ :=
  claim_c4_failure_cleanup "x" 42 "u" "gcc" (.completed 1 "err" true) 2
    (by decide)

/-- C5: a probe succeeds exactly when the compiler exited with status
zero; on success the `.c` file is kept and no `.o` file remains, the
saved-file path is returned, and the error text is empty; on failure no
saved-file path is returned. -/
theorem claim_c5_success_semantics (content : String) (pid : Nat)
    (uid : String) (compiler : String) (outcome : RunOutcome) (timeout : Nat) :
    ((test_compilation content pid uid compiler outcome timeout).success = true
      ↔ ∃ stderr oP, outcome = .completed 0 stderr oP)
    ∧ ((test_compilation content pid uid compiler outcome timeout).success
          = true →
        (test_compilation content pid uid compiler outcome timeout).files
            = ⟨true, false⟩
        ∧ (test_compilation content pid uid compiler outcome timeout).saved_file
            = some (c_filename pid uid)
        ∧ (test_compilation content pid uid compiler outcome
            timeout).error_message = "")
    ∧ ((test_compilation content pid uid compiler outcome timeout).success
          = false →
        (test_compilation content pid uid compiler outcome timeout).saved_file
          = none) := by
  cases outcome with
  | completed rc stderr oP =>
      by_cases hrc : rc = 0
      · subst hrc
        refine ⟨?_, ?_, ?_⟩
        · simp [test_compilation]
        · intro _
          refine ⟨rfl, rfl, rfl⟩
        · intro hfalse
          simp [test_compilation] at hfalse
      · have hb : (rc == 0) = false := by
          simp [hrc]
        refine ⟨?_, ?_, ?_⟩
        · simp [test_compilation, hb, hrc]
        · intro htrue
          simp [test_compilation, hb] at htrue
        · intro _
          simp [test_compilation, hb]
  | raised msg oP =>
      refine ⟨?_, ?_, ?_⟩
      · simp [test_compilation]
      · intro htrue
        simp [test_compilation] at htrue
      · intro _
        rfl

/-- C5 witness at a successful probe. -/
theorem claim_c5_witness :
    ((test_compilation "x;" 7 "u" "gcc" (.completed 0 "" false) 2).success
        = true
      ↔ ∃ stderr oP,
          (RunOutcome.completed 0 "" false) = .completed 0 stderr oP)
    ∧ ((test_compilation "x;" 7 "u" "gcc" (.completed 0 "" false) 2).success
          = true →
        (test_compilation "x;" 7 "u" "gcc" (.completed 0 "" false) 2).files
            = ⟨true, false⟩
        ∧ (test_compilation "x;" 7 "u" "gcc"
            (.completed 0 "" false) 2).saved_file = some (c_filename 7 "u")
        ∧ (test_compilation "x;" 7 "u" "gcc"
            (.completed 0 "" false) 2).error_message = "")
    ∧ ((test_compilation "x;" 7 "u" "gcc" (.completed 0 "" false) 2).success
          = false →
        (test_compilation "x;" 7 "u" "gcc"
          (.completed 0 "" false) 2).saved_file = none) :=
  claim_c5_success_semantics "x;" 7 "u" "gcc" (.completed 0 "" false) 2

/-- C6: a non-zero compiler exit and a raised call (timeout or launch
failure) each yield an ordinary failure value — success flag `false`
plus the diagnostic text — from `test_compilation`, and `worker` returns
that flag as data; nothing escapes as an exception (both functions are
total in the embedding). -/
theorem claim_c6_failures_are_data (content : String) (pid : Nat)
    (uid : String) (compiler : String) (timeout : Nat) (rc : Int)
    (stderr msg : String) (oP oQ : Bool) (stream : Nat → Nat → Nat)
    (t : WorkerTask) (counters : Counters) (wpid : Nat) (h : rc ≠ 0) :
    ((test_compilation content pid uid compiler (.completed rc stderr oP)
        timeout).success = false
      ∧ (test_compilation content pid uid compiler (.completed rc stderr oP)
          timeout).error_message = stderr)
    ∧ ((test_compilation content pid uid compiler (.raised msg oQ)
          timeout).success = false
      ∧ (test_compilation content pid uid compiler (.raised msg oQ)
          timeout).error_message = msg)
    ∧ (worker stream t counters wpid uid (.completed rc stderr oP)).success
        = false
    ∧ (worker stream t counters wpid uid (.raised msg oQ)).success = false := by
  have hb : (rc == 0) = false := by
    simp [h]
  refine ⟨⟨?_, ?_⟩, ⟨rfl, rfl⟩, ?_, rfl⟩
  · simp [test_compilation, hb]
  · simp [test_compilation, hb]
  · simp [worker, test_compilation, hb]

/-- C6 witness at exit code 1 and a timeout message. -/
theorem claim_c6_witness :
    ((test_compilation "x" 3 "u" "gcc" (.completed 1 "bad" false) 2).success
        = false
      ∧ (test_compilation "x" 3 "u" "gcc" (.completed 1 "bad" false)
          2).error_message = "bad")
    ∧ ((test_compilation "x" 3 "u" "gcc"
          (.raised "timed out" false) 2).success = false
      ∧ (test_compilation "x" 3 "u" "gcc" (.raised "timed out" false)
          2).error_message = "timed out")
    ∧ (worker demo_stream ⟨0, 5, "ab", "gcc", false⟩ ⟨0, 0⟩ 3 "u"
        (.completed 1 "bad" false)).success = false
    ∧ (worker demo_stream ⟨0, 5, "ab", "gcc", false⟩ ⟨0, 0⟩ 3 "u"
        (.raised "timed out" false)).success = false :=
  claim_c6_failures_are_data "x" 3 "u" "gcc" 2 1 "bad" "timed out" false false
    demo_stream ⟨0, 5, "ab", "gcc", false⟩ ⟨0, 0⟩ 3 (by decide)

/-- C7: when every character class is excluded and no custom charset is
given, `main` reports the configuration error and returns before any
task is dispatched or any counter is created. -/
theorem claim_c7_empty_charset_error (cfg : Config)
    (h1 : cfg.no_lowercase = true) (h2 : cfg.no_uppercase = true)
    (h3 : cfg.no_digits = true) (h4 : cfg.no_symbols = true)
    (h5 : cfg.whitespace = false)
    (h6 : py_truthy cfg.custom_charset = false) :
    main_setup cfg
      = .configError "Error: At least one character type must be included"
    ∧ tasks_of (main_setup cfg) = [] := by
  have hcs : main_charset cfg = "" := by
    simp [main_charset, get_charset, h1, h2, h3, h4, h5, h6]
  constructor
  · simp [main_setup, hcs]
  · simp [main_setup, hcs, tasks_of]

/-- C7 witness: the all-excluded command line. -/
theorem claim_c7_witness :
    main_setup ⟨5, 10000, true, true, true, true, false, none, "gcc", false, 2⟩
      = .configError "Error: At least one character type must be included"
    ∧ tasks_of (main_setup
        ⟨5, 10000, true, true, true, true, false, none, "gcc", false, 2⟩)
      = [] :=
  claim_c7_empty_charset_error
    ⟨5, 10000, true, true, true, true, false, none, "gcc", false, 2⟩
    rfl rfl rfl rfl rfl rfl

/-- C8: `calculate_combinations` is exactly `K ^ N`, and
`format_large_number` picks the scientific rendering exactly when the
value is at least `10^6` (= the source's `1e6` threshold, exact on the
integers it receives), with `exponent = floor(log10 n)`, so the value
lies between `10^exponent` and `10^(exponent+1)` — the mantissa
`n / 10^exponent` is in `[1, 10)`. -/
theorem claim_c8_combinations_and_format (charset_size len n : Nat) :
    calculate_combinations charset_size len = charset_size ^ len
    ∧ ((∃ v e, format_large_number n = .scientific v e) ↔ 1000000 ≤ n)
    ∧ (n < 1000000 → format_large_number n = .plain n)
    ∧ (1000000 ≤ n →
        format_large_number n = .scientific n (Nat.log 10 n)
        ∧ 10 ^ Nat.log 10 n ≤ n
        ∧ n < 10 ^ (Nat.log 10 n + 1)) := by
  refine ⟨rfl, ?_, ?_, ?_⟩
  · by_cases h : n < 1000000
    · simp [format_large_number, h]
    · simp [format_large_number, h]
      omega
  · intro h
    simp [format_large_number, h]
  · intro h
    have hn : n ≠ 0 := by omega
    have hlt : ¬ n < 1000000 := by omega
    exact ⟨by simp [format_large_number, hlt],
      Nat.pow_log_le_self 10 hn,
      Nat.lt_pow_succ_log_self (by norm_num) n⟩

/-- C8 witness at `K = 2`, `N = 3`, and a value of `10^7`. -/
theorem claim_c8_witness :
    calculate_combinations 2 3 = 2 ^ 3
    ∧ ((∃ v e, format_large_number 10000000 = .scientific v e)
        ↔ 1000000 ≤ 10000000)
    ∧ (10000000 < 1000000 → format_large_number 10000000 = .plain 10000000)
    ∧ (1000000 ≤ 10000000 →
        format_large_number 10000000
          = .scientific 10000000 (Nat.log 10 10000000)
        ∧ 10 ^ Nat.log 10 10000000 ≤ 10000000
        ∧ 10000000 < 10 ^ (Nat.log 10 10000000 + 1)) :=
  claim_c8_combinations_and_format 2 3 10000000

/-- C9 counterexample: the seed is the *sum* `pid + task_id`, so two
distinct concurrently-run tasks — different task ids on different
processes — can collide: `(pid, task) = (1000, 5)` and `(1001, 4)` get
the same seed, hence identical generated content for the same stream,
refuting "different concurrently-run tasks do not collide". -/
theorem claim_c9_counterexample :
    worker_seed 1000 5 = worker_seed 1001 4
    ∧ ((1000, 5) : Nat × Nat) ≠ (1001, 4)
    ∧ generate_random_c_content 3 ['a', 'b', 'c']
        (demo_stream (worker_seed 1000 5))
      = generate_random_c_content 3 ['a', 'b', 'c']
        (demo_stream (worker_seed 1001 4)) :=
  ⟨rfl, by decide, rfl⟩

/-- C9 (amended): the worker seeds from `pid + task_id`; any two worker
executions with equal seed sums — in particular the same pid and task
id — and the same length and charset generate identical content
(two-run determinism), and two tasks run by the same process get
distinct seeds; distinct (pid, task) pairs on different processes may
still collide when the sums coincide. -/
theorem claim_c9_seed_determinism (stream : Nat → Nat → Nat)
    (p1 t1 p2 t2 size : Nat) (charset compiler uid1 uid2 : String)
    (se1 se2 : Bool) (c1 c2 : Counters) (o1 o2 : RunOutcome)
    (hseed : worker_seed p1 t1 = worker_seed p2 t2) :
    (worker stream ⟨t1, size, charset, compiler, se1⟩ c1 p1 uid1 o1).probe.content
      = (worker stream ⟨t2, size, charset, compiler, se2⟩ c2 p2 uid2
          o2).probe.content
    ∧ (p1 = p2 → t1 = t2) := by
  constructor
  · simp only [worker, test_compilation_content]
    rw [hseed]
  · intro hp
    subst hp
    simp only [worker_seed] at hseed
    exact Nat.add_left_cancel hseed

/-- C9 amended-claim witness: same process, same task id. -/
theorem claim_c9_witness :
    (worker demo_stream ⟨5, 4, "abc", "gcc", false⟩ ⟨0, 0⟩ 1000 "u1"
        (.completed 0 "" false)).probe.content
      = (worker demo_stream ⟨5, 4, "abc", "gcc", true⟩ ⟨3, 1⟩ 1000 "u2"
          (.raised "late" true)).probe.content
    ∧ (1000 = 1000 → 5 = 5) :=
  claim_c9_seed_determinism demo_stream 1000 5 1000 5 4 "abc" "gcc" "u1" "u2"
    false true ⟨0, 0⟩ ⟨3, 1⟩ (.completed 0 "" false) (.raised "late" true)
    rfl

/-- C10: `get_charset` treats an empty custom charset exactly like no
override — the flag-assembled set is returned — while any non-empty
custom charset is returned verbatim, regardless of the inclusion
flags. -/
theorem claim_c10_custom_charset (lc uc dg sy ws : Bool) (s : String)
    (h : s ≠ "") :
    get_charset lc uc dg sy ws (some "") = get_charset lc uc dg sy ws none
    ∧ get_charset lc uc dg sy ws (some s) = s := by
  constructor
  · rfl
  · have hemp : s.isEmpty = false := by
      rcases hbool : s.isEmpty with _ | _
      · rfl
      · exact absurd ((String.isEmpty_iff s).mp hbool) h
    have ht : py_truthy (some s) = true := by
      simp [py_truthy, hemp]
    simp [get_charset, ht]

/-- C10 witness: empty override ignored, non-empty override verbatim,
with all inclusion flags set. -/
theorem claim_c10_witness :
    get_charset true true true true false (some "")
      = get_charset true true true true false none
    ∧ get_charset true true true true false (some "ab") = "ab" :=
  claim_c10_custom_charset true true true true false "ab" (by decide)

/-- C1 (amended to what the code does): the compiler subprocess of every
probe dispatched by `main` runs with timeout 2 — the Python default of
`test_compilation`'s keyword argument — for every configuration,
including any `--timeout` value, because `worker` omits the timeout
argument and `main` never forwards `args.timeout` into the task tuple.
Expiry (a raised `TimeoutExpired`) is a probe failure, but the
command-line timeout value is ignored. -/
theorem claim_c1_worker_timeout_is_always_two (cfg : Config) (i : Nat)
    (stream : Nat → Nat → Nat) (counters : Counters) (pid : Nat)
    (uid : String) (outcome : RunOutcome) :
    (worker stream (make_task cfg i) counters pid uid
        outcome).probe.subprocessTimeout = 2
    ∧ (worker stream (make_task cfg i) counters pid uid
        (.raised "timed out" false)).success = false := by
  constructor
  · cases outcome <;> rfl
  · rfl
